import Mathlib

/-!
Verification of the XsigToPdf conversion core (src/xsig_pdf.py) against its
natural-language specification.

The Python module is shallowly embedded:
* byte strings become `List Nat`, with `find`/`rfind`/slicing modelled directly;
* every tolerant tree lookup (`Element.findtext`, `Element.find`,
  `Element.findall`) is abstracted by an oracle record whose fields hold the
  lookup results (`Option String` for `findtext` — `none` means the element was
  not found, `some t` is its text — and `Option`/`List` records for subtrees);
* Python dict values built by the module become association lists over `String`;
* calendar instants are abstracted as integer keys ordered like the underlying
  datetimes, and external fallible libraries (base64 + X.509 parsing, dateutil
  parsing, XML tree parsing, float formatting) appear as explicit
  `Except`/`Option`-valued inputs, mirroring the call sites that consume them.
-/

namespace XsigToPdf

/-! ### Python dictionaries as association lists -/

/-- Association-list model of the string-valued Python dicts built by the
module.  Keys are unique by construction in every dict the code creates. -/
abbrev Dict := List (String × String)

/-- Model of Python `d.get(k, default)`. -/
def dget (d : Dict) (k : String) (dflt : String) : String :=
  match d.find? (fun p => p.1 == k) with
  | some p => p.2
  | none => dflt

/-- Key-membership in a dict (Python `k in d`). -/
def dmem (d : Dict) (k : String) : Bool :=
  (d.find? (fun p => p.1 == k)).isSome

/-- Model of `ElementTree.findtext(path, default=d)`: the oracle field holds
`some t` when the element was found with text `t` (an element found with empty
text yields `some ""`, as `findtext` does), and `none` when no element matched,
in which case the supplied default is returned. -/
def ftext (o : Option String) (dflt : String) : String := o.getD dflt

/-! ### Python whitespace and `str.strip` -/

/-- Code points Python's `str` type treats as whitespace (the set used by
`str.strip()` with no arguments and by `str.isspace`). -/
def pySpaceCodes : List Nat :=
  [9, 10, 11, 12, 13, 28, 29, 30, 31, 32, 133, 160, 5760,
   8192, 8193, 8194, 8195, 8196, 8197, 8198, 8199, 8200, 8201, 8202,
   8232, 8233, 8239, 8287, 12288]

/-- Whether a character is Python whitespace. -/
def pyIsSpace (c : Char) : Bool := pySpaceCodes.contains c.toNat

/-- Model of Python `str.strip()`: drop leading and trailing whitespace. -/
def pyStrip (s : String) : String :=
  String.mk (((s.toList.dropWhile pyIsSpace).reverse.dropWhile pyIsSpace).reverse)

/-- Model of Python `s.startswith(p)`: `p` is a prefix of `s`. -/
def py_startswith (s p : String) : Bool :=
  p.data.isPrefixOf s.data

/-! ### Container Extractor (`_extract_xml_from_xsig_bytes`) -/

/-- First index at which `pat` occurs as a contiguous sublist of `l`
(the successful case of Python `bytes.find`). -/
def first_index (pat : List Nat) : List Nat → Option Nat
  | [] => if pat = [] then some 0 else none
  | h :: t =>
    if pat.isPrefixOf (h :: t) then some 0
    else (first_index pat t).map (· + 1)

/-- Last index at which the single byte `c` occurs in `l`
(the successful case of Python `bytes.rfind` on a one-byte needle). -/
def last_index (c : Nat) : List Nat → Option Nat
  | [] => none
  | h :: t =>
    match last_index c t with
    | some j => some (j + 1)
    | none => if h = c then some 0 else none

/-- Python `bytes.find`: index of the first occurrence, `-1` when absent. -/
def bfind (pat : List Nat) (l : List Nat) : Int :=
  match first_index pat l with
  | some i => (i : Int)
  | none => -1

/-- Python `bytes.rfind` for a one-byte needle: index of the last occurrence,
`-1` when absent. -/
def brfind (c : Nat) (l : List Nat) : Int :=
  match last_index c l with
  | some j => (j : Int)
  | none => -1

/-- Python slice `l[s:e]` for the in-range indices the extractor uses. -/
def list_slice (l : List Nat) (s e : Nat) : List Nat :=
  (l.drop s).take (e - s)

/-- Byte sequence of the XML prolog marker `b"<?xml"`. -/
def xml_marker : List Nat := [60, 63, 120, 109, 108]

/-- Embedding of `_extract_xml_from_xsig_bytes`: locate `b"<?xml"` and the
last `b">"`; when the marker exists and the slice is non-degenerate return the
inclusive slice, otherwise return the input unchanged. -/
def extract_xml_from_xsig_bytes (xsig_bytes : List Nat) : List Nat :=
  let xml_start := bfind xml_marker xsig_bytes
  let xml_end := brfind 62 xsig_bytes + 1
  if xml_start ≠ -1 ∧ xml_end > xml_start then
    list_slice xsig_bytes xml_start.toNat xml_end.toNat
  else
    xsig_bytes

/-! ### Certificate Interpreter (`_extract_signature_info_from_xml`)

Calendar instants (`datetime` values) are abstracted as `Int` keys whose order
agrees with the order on the underlying datetimes; the `strftime("%Y-%m-%d")`
rendering of a certificate bound is carried alongside as opaque text, since the
claims never constrain its digits. -/

/-- Abstraction of a parsed X.509 certificate: each subject/issuer attribute
lookup is an `Option` (`none` models the `except`-guarded lookup failure), the
validity bounds are instant keys plus their date text. -/
structure Cert where
  commonName : Option String
  serialNumber : Option String
  issuerCommonName : Option String
  hashAlgorithmName : Option String
  notValidBefore : Int
  notValidBeforeText : String
  notValidAfter : Int
  notValidAfterText : String

/-- Result of `dateutil.parser.parse` on the signing-time text: the naive
wall-clock instant key together with the timezone offset, if the text carried
one.  `replace(tzinfo=None)` keeps `wall` and discards `tzoffset`. -/
structure ParsedDatetime where
  wall : Int
  tzoffset : Option Int

/-- Model of `signing_datetime.replace(tzinfo=None)`. -/
def replace_tzinfo_none (d : ParsedDatetime) : ParsedDatetime :=
  { wall := d.wall, tzoffset := none }

/-- Oracle for the signature-related lookups and external library calls made
by `_extract_signature_info_from_xml` on one document. -/
structure SignatureEnv where
  /-- Result of `findtext(".//ds:X509Certificate")`. -/
  x509CertificateText : Option String
  /-- Combined result of `base64.b64decode` + `x509.load_der_x509_certificate`
  on that text; `.error e` models the raised exception with message `e`. -/
  certificate : Except String Cert
  /-- Result of `findtext(".//xades:SigningTime")`. -/
  signingTimeText : Option String
  /-- Result of `dateutil.parser.parse` on the signing-time string;
  `.error e` models the raised exception with message `e`. -/
  signingTimeParse : Except String ParsedDatetime

/-- The current-validity branch of `_extract_signature_info_from_xml`
(lines 81-87 of `src/xsig_pdf.py`). -/
def estado_certificado_of (now valido_desde valido_hasta : Int) : String :=
  if now < valido_desde then "Certificado aún no válido (vigencia futura)"
  else if now > valido_hasta then "Certificado caducado"
  else "Certificado actualmente válido"

/-- The validity-at-signing branch of `_extract_signature_info_from_xml`
(lines 90-98 of `src/xsig_pdf.py`). -/
def validez_en_firma_of (parseResult : Except String ParsedDatetime)
    (valido_desde valido_hasta : Int) : String :=
  match parseResult with
  | .ok signing_datetime =>
    let signing_naive := replace_tzinfo_none signing_datetime
    if valido_desde ≤ signing_naive.wall ∧ signing_naive.wall ≤ valido_hasta then
      "Certificado válido en la fecha de la firma"
    else
      "Certificado NO era válido en la fecha de la firma"
  | .error e => "No se pudo validar la fecha de firma: " ++ e

/-- Embedding of `_extract_signature_info_from_xml`.  `now` is the
`datetime.utcnow()` instant.  The Python function's outer `try` is realised by
the `Except` scrutinees: every failure path returns a dict instead of
propagating. -/
def extract_signature_info_from_xml (now : Int) (env : SignatureEnv) : Dict :=
  let cert_base64 := ftext env.x509CertificateText ""
  if cert_base64 = "" then
    [("estado", "No se encontró certificado")]
  else
    match env.certificate with
    | .error e => [("estado", "Error al extraer firma: " ++ e)]
    | .ok cert =>
      let cn := cert.commonName.getD "N/A"
      let nif := cert.serialNumber.getD "N/A"
      let cert_issuer := cert.issuerCommonName.getD "No disponible"
      let algorithm :=
        match cert.hashAlgorithmName with
        | some nm => nm.toUpper
        | none => "N/A"
      let signing_time_str := ftext env.signingTimeText "No especificada"
      let valido_desde := cert.notValidBefore
      let valido_hasta := cert.notValidAfter
      let estado_actual := estado_certificado_of now valido_desde valido_hasta
      let validez_en_firma :=
        validez_en_firma_of env.signingTimeParse valido_desde valido_hasta
      [("estado", "Firma encontrada"),
       ("firmante", cn),
       ("nif", nif),
       ("algoritmo", algorithm),
       ("fecha_firma", signing_time_str),
       ("valido_desde", cert.notValidBeforeText),
       ("valido_hasta", cert.notValidAfterText),
       ("estado_certificado", estado_actual),
       ("validez_en_firma", validez_en_firma),
       ("autoridad_certificadora", cert_issuer)]

/-- The `found` flag of the spec's SignatureInfo, as the renderer reads it:
`firma.get("estado", "").startswith("Firma")`. -/
def sig_found (d : Dict) : Bool :=
  py_startswith (dget d ("estado") ("")) ("Firma")

/-! ### Issue-date reformatting (`datetime.strptime(raw, "%Y-%m-%d")`)

CPython's `_strptime` compiles `"%Y-%m-%d"` to the regular expression
`(\d\d\d\d)-(1[0-2]|0[1-9]|[1-9])-(3[0-1]|[1-2]\d|0[1-9]|[1-9]| [1-9])`,
matched at the start of the string with the whole string required to be
consumed, after which `datetime(year, month, day)` validates the calendar
date.  The alternative lists below reproduce the alternation order of that
regular expression; a candidate is committed only if the following literal
dash (for the month) matches, exactly as the backtracking engine does. -/

/-- Decimal-digit test on a Unicode code point (`\d` over ASCII input). -/
def is_digit_code (n : Nat) : Bool := 48 ≤ n && n ≤ 57

/-- Month alternatives of the `%m` pattern `1[0-2]|0[1-9]|[1-9]`, in
alternation order, each with the unconsumed remainder.  The input is the
code-point sequence of the text (45 = `-`, 48-57 = `0`-`9`). -/
def monthAlts (cs : List Nat) : List (Nat × List Nat) :=
  (match cs with
   | c1 :: c2 :: rest =>
     if c1 = 49 ∧ 48 ≤ c2 ∧ c2 ≤ 50 then [(10 + (c2 - 48), rest)] else []
   | _ => []) ++
  (match cs with
   | c1 :: c2 :: rest =>
     if c1 = 48 ∧ 49 ≤ c2 ∧ c2 ≤ 57 then [(c2 - 48, rest)] else []
   | _ => []) ++
  (match cs with
   | c1 :: rest =>
     if 49 ≤ c1 ∧ c1 ≤ 57 then [(c1 - 48, rest)] else []
   | [] => [])

/-- Day alternatives of the `%d` pattern
`3[0-1]|[1-2]\d|0[1-9]|[1-9]| [1-9]`, in alternation order (32 = space). -/
def dayAlts (cs : List Nat) : List (Nat × List Nat) :=
  (match cs with
   | c1 :: c2 :: rest =>
     if c1 = 51 ∧ 48 ≤ c2 ∧ c2 ≤ 49 then [(30 + (c2 - 48), rest)] else []
   | _ => []) ++
  (match cs with
   | c1 :: c2 :: rest =>
     if (49 ≤ c1 ∧ c1 ≤ 50) ∧ (48 ≤ c2 ∧ c2 ≤ 57) then
       [(10 * (c1 - 48) + (c2 - 48), rest)]
     else []
   | _ => []) ++
  (match cs with
   | c1 :: c2 :: rest =>
     if c1 = 48 ∧ 49 ≤ c2 ∧ c2 ≤ 57 then [(c2 - 48, rest)] else []
   | _ => []) ++
  (match cs with
   | c1 :: rest =>
     if 49 ≤ c1 ∧ c1 ≤ 57 then [(c1 - 48, rest)] else []
   | [] => []) ++
  (match cs with
   | c1 :: c2 :: rest =>
     if c1 = 32 ∧ 49 ≤ c2 ∧ c2 ≤ 57 then [(c2 - 48, rest)] else []
   | _ => [])

/-- Gregorian leap-year test, as `datetime` uses. -/
def isLeapYear (y : Nat) : Bool :=
  y % 4 = 0 ∧ (y % 100 ≠ 0 ∨ y % 400 = 0)

/-- Days in a month, as `datetime` validates the day against. -/
def days_in_month (y m : Nat) : Nat :=
  if m = 2 then (if isLeapYear y then 29 else 28)
  else if m ∈ [4, 6, 9, 11] then 30
  else 31

/-- The regular-expression stage of `datetime.strptime(s, "%Y-%m-%d")`:
four year digits, a dash, a month alternative whose following dash matches
(backtracking through the alternatives in order), a day alternative, and an
empty remainder (`_strptime` raises on unconverted trailing data). -/
def strptime_match_Ymd (s : String) : Option (Nat × Nat × Nat) :=
  match s.data.map Char.toNat with
  | y1 :: y2 :: y3 :: y4 :: c5 :: rest =>
    if c5 = 45 ∧ is_digit_code y1 ∧ is_digit_code y2 ∧ is_digit_code y3 ∧
        is_digit_code y4 then
      (monthAlts rest).findSome? fun mc =>
        match mc.2 with
        | c6 :: rest3 =>
          if c6 = 45 then
            (dayAlts rest3).findSome? fun dc =>
              if dc.2 = [] then
                some (1000 * (y1 - 48) + 100 * (y2 - 48) + 10 * (y3 - 48) + (y4 - 48),
                      mc.1, dc.1)
              else none
          else none
        | [] => none
    else none
  | _ => none

/-- Embedding of `datetime.strptime(s, "%Y-%m-%d")`: the pattern match
followed by the `datetime(year, month, day)` constructor's validation
(`MINYEAR ≤ year` and a calendar-valid day; the regular expression already
bounds the month by 12 and the day by 31). -/
def strptime_Ymd (s : String) : Option (Nat × Nat × Nat) :=
  match strptime_match_Ymd s with
  | some (y, m, d) =>
    if 1 ≤ y ∧ d ≤ days_in_month y m then some (y, m, d) else none
  | none => none

/-- Two-digit zero-padded rendering used by `strftime` for `%d` and `%m`. -/
def pad2 (n : Nat) : String :=
  if n < 10 then "0" ++ toString n else toString n

/-- Embedding of `.strftime("%d/%m/%Y")` on a parsed date.  On the reference
platform, `%Y` renders the year without zero padding. -/
def strftime_dmY (y m d : Nat) : String :=
  pad2 d ++ "/" ++ pad2 m ++ "/" ++ toString y

/-- The issue-date mapping of `_extract_invoice_data_from_xml`
(lines 191-194 of `src/xsig_pdf.py`): reformat when `strptime` succeeds,
otherwise pass the raw text through. -/
def map_issue_date (raw_date : String) : String :=
  match strptime_Ymd raw_date with
  | some (y, m, d) => strftime_dmY y m d
  | none => raw_date

/-! ### Invoice Mapper (`_extract_invoice_data_from_xml`)

The `ParsedDocument` is abstracted by `XmlDoc`, whose fields hold the results
of the fixed-path lookups the mapper performs. -/

/-- Lookup results under a party element (`SellerParty` or `BuyerParty`). -/
structure PartyQ where
  taxIdentificationNumber : Option String
  corporateName : Option String
  address : Option String
  postCode : Option String
  town : Option String
  province : Option String
  countryCode : Option String

/-- Lookup results under one `AdministrativeCentre` element. -/
structure AdminCentreQ where
  centreCode : Option String
  name : Option String

/-- Lookup results for the buyer: the party fields plus the
`AdministrativeCentres/AdministrativeCentre` elements in document order. -/
structure BuyerPartyQ where
  party : PartyQ
  administrativeCentres : List AdminCentreQ

/-- Lookup results under one `Items/InvoiceLine` element. -/
structure InvoiceLineQ where
  itemDescription : Option String
  quantity : Option String
  unitPriceWithoutTax : Option String
  totalCost : Option String

/-- Lookup results under the `InvoiceTotals` subtree. -/
structure InvoiceTotalsQ where
  totalGrossAmount : Option String
  totalGeneralDiscounts : Option String
  totalGrossAmountBeforeTaxes : Option String
  totalTaxOutputs : Option String
  totalTaxesWithheld : Option String
  invoiceTotal : Option String
  totalOutstandingAmount : Option String
  totalExecutableAmount : Option String

/-- Lookup results under the first `Invoices/Invoice` element. -/
structure InvoiceQ where
  invoiceNumber : Option String
  invoiceSeriesCode : Option String
  invoiceDocumentType : Option String
  invoiceCurrencyCode : Option String
  issueDate : Option String
  invoiceClass : Option String
  invoiceTotals : Option InvoiceTotalsQ
  invoiceLines : List InvoiceLineQ

/-- Oracle for all fixed-path lookups the mapper performs on a parsed
document (`none` means the subtree/element was not found). -/
structure XmlDoc where
  sellerParty : Option PartyQ
  buyerParty : Option BuyerPartyQ
  invoiceAdditionalInformation : Option String
  /-- Text of each `LegalLiterals/LegalReference` element, in document order;
  `none` models an element whose `.text` is `None`. -/
  legalReferences : List (Option String)
  invoice : Option InvoiceQ
  signature : SignatureEnv

/-- The structured invoice model: the dict built at lines 228-242 of
`src/xsig_pdf.py`, with its fixed keys as typed slots. -/
structure InvoiceData where
  numeroFactura : String
  fecha : String
  tipoDocumento : String
  moneda : String
  claseFactura : String
  totalFactura : String
  totales : Dict
  emisor : Dict
  receptor : Dict
  conceptos : List Dict
  firma : Dict
  infoAdicional : String
  referenciasLegales : List String

/-- The fixed six-entry invoice-class table. -/
def invoice_class_map : Dict :=
  [("OO", "Original"),
   ("OR", "Original Rectificativa"),
   ("OC", "Original Recapitulativa"),
   ("CO", "Duplicado Original"),
   ("CR", "Duplicado Rectificativa"),
   ("CC", "Duplicado Recapitulativa")]

/-- The seller block of the mapper (lines 117-138): the emitter dict. -/
def emisor_of (sellerParty : Option PartyQ) : Dict :=
  match sellerParty with
  | some sp =>
    let tax_id := ftext sp.taxIdentificationNumber "N/A"
    let corporate_name := ftext sp.corporateName "N/A"
    let address := ftext sp.address "N/A"
    let postcode := ftext sp.postCode "N/A"
    let town := ftext sp.town "N/A"
    let province := ftext sp.province "N/A"
    let country := ftext sp.countryCode "N/A"
    let emitter_address :=
      address ++ ", " ++ postcode ++ " " ++ town ++ ", " ++ province ++ ", " ++ country
    [("Nombre", corporate_name), ("NIF", tax_id), ("Dirección", emitter_address),
     ("Poblacion", town), ("Cod.Postal", postcode), ("Provincia", province)]
  | none =>
    [("Nombre", "N/A"), ("NIF", "N/A"), ("Dirección", "N/A"),
     ("Poblacion", "N/A"), ("Cod.Postal", "N/A"), ("Provincia", "N/A")]

/-- The legal-reference comprehension (line 141):
`[ref.text.strip() for ref in ... if ref.text and ref.text.strip() != ""]`. -/
def legal_references_of (texts : List (Option String)) : List String :=
  texts.filterMap fun t =>
    match t with
    | some s => if s ≠ "" ∧ pyStrip s ≠ "" then some (pyStrip s) else none
    | none => none

/-- The positional routing codes of the receiver (lines 162-167):
`f"{code} - {desc}"` per administrative centre, in document order. -/
def destinos_of (buyerParty : Option BuyerPartyQ) : List String :=
  match buyerParty with
  | some bp =>
    bp.administrativeCentres.map fun admin =>
      ftext admin.centreCode "N/A" ++ " - " ++ ftext admin.name "N/A"
  | none => []

/-- The buyer block of the mapper (lines 143-170): the receptor dict,
including the three positional routing keys. -/
def receptor_of (buyerParty : Option BuyerPartyQ) : Dict :=
  let base :=
    match buyerParty with
    | some bp =>
      let buyer_tax_id := ftext bp.party.taxIdentificationNumber "N/A"
      let buyer_name := ftext bp.party.corporateName "N/A"
      let b_address := ftext bp.party.address "N/A"
      let b_postcode := ftext bp.party.postCode ""
      let b_town := ftext bp.party.town ""
      let b_province := ftext bp.party.province ""
      let b_country := ftext bp.party.countryCode ""
      let buyer_address :=
        b_address ++ ", " ++ b_postcode ++ " " ++ b_town ++ ", " ++ b_province ++ ", " ++ b_country
      [("Nombre", buyer_name), ("NIF", buyer_tax_id), ("Dirección", buyer_address)]
    | none =>
      [("Nombre", "N/A"), ("NIF", "N/A"), ("Dirección", "N/A")]
  let destinos := destinos_of buyerParty
  base ++
    [("OfiCont", destinos.getD 0 ("N/A")),
     ("OrgGest", destinos.getD 1 ("N/A")),
     ("UndTram", destinos.getD 2 ("N/A"))]

/-- The invoice-header block (lines 172-198): display number (series ++ raw
number), issue date, document type, currency and class description. -/
def invoice_header_of (invoice : Option InvoiceQ) :
    String × String × String × String × String :=
  match invoice with
  | some inv =>
    let invoice_number := ftext inv.invoiceNumber "N/A"
    let invoice_series := ftext inv.invoiceSeriesCode ""
    let invoice_type := ftext inv.invoiceDocumentType "N/A"
    let invoice_currency := ftext inv.invoiceCurrencyCode "N/A"
    let raw_date := ftext inv.issueDate "N/A"
    let invoice_class := ftext inv.invoiceClass "N/A"
    let invoice_class_desc := dget invoice_class_map invoice_class "N/A"
    let issue_date := map_issue_date raw_date
    (invoice_series ++ invoice_number, issue_date, invoice_type,
     invoice_currency, invoice_class_desc)
  | none => ("N/A", "N/A", "N/A", "N/A", "N/A")

/-- The totals block (lines 200-211): an empty dict unless both the invoice
element and its `InvoiceTotals` subtree are present. -/
def totales_of (invoice : Option InvoiceQ) : Dict :=
  match invoice with
  | some inv =>
    match inv.invoiceTotals with
    | some invoice_totals =>
      [("TotalGrossAmount", ftext invoice_totals.totalGrossAmount "0.00"),
       ("TotalGeneralDiscounts", ftext invoice_totals.totalGeneralDiscounts "0.00"),
       ("TotalGrossAmountBeforeTaxes", ftext invoice_totals.totalGrossAmountBeforeTaxes "N/A"),
       ("TotalTaxOutputs", ftext invoice_totals.totalTaxOutputs "N/A"),
       ("TotalTaxesWithheld", ftext invoice_totals.totalTaxesWithheld "N/A"),
       ("InvoiceTotal", ftext invoice_totals.invoiceTotal "N/A"),
       ("TotalOutstandingAmount", ftext invoice_totals.totalOutstandingAmount "N/A"),
       ("TotalExecutableAmount", ftext invoice_totals.totalExecutableAmount "N/A")]
    | none => []
  | none => []

/-- The line-items block (lines 213-225). -/
def conceptos_of (invoice : Option InvoiceQ) : List Dict :=
  match invoice with
  | some inv =>
    inv.invoiceLines.map fun line =>
      [("Descripción", ftext line.itemDescription "N/A"),
       ("Cantidad", ftext line.quantity "N/A"),
       ("Precio Unitario", ftext line.unitPriceWithoutTax "N/A"),
       ("Importe", ftext line.totalCost "N/A")]
  | none => []

/-- Embedding of `_extract_invoice_data_from_xml`.  `now` is the evaluation
instant threaded to the Certificate Interpreter. -/
def extract_invoice_data_from_xml (now : Int) (doc : XmlDoc) : InvoiceData :=
  let emitter := emisor_of doc.sellerParty
  let invoice_additional_info := pyStrip (ftext doc.invoiceAdditionalInformation "")
  let legal_references := legal_references_of doc.legalReferences
  let receptor := receptor_of doc.buyerParty
  let header := invoice_header_of doc.invoice
  let totals := totales_of doc.invoice
  let items := conceptos_of doc.invoice
  let firma_info := extract_signature_info_from_xml now doc.signature
  { numeroFactura := header.1
    fecha := header.2.1
    tipoDocumento := header.2.2.1
    moneda := header.2.2.2.1
    claseFactura := header.2.2.2.2
    totalFactura := dget totals ("InvoiceTotal") ("N/A")
    totales := totals
    emisor := emitter
    receptor := receptor
    conceptos := items
    firma := firma_info
    infoAdicional := invoice_additional_info
    referenciasLegales := legal_references }

/-! ### Document Renderer (`_generate_pdf_from_invoice`)

The reportlab flowable list is abstracted: a `Paragraph` keeps its markup
text, a `Spacer` its presence, a `Table` the paragraph texts of its cells
(a cell may hold several flowables, hence `List String` per cell).  Styling
(fonts, colors, column widths, alignment) has no observable content at this
level and is dropped.  The numeric cell formatter `_fmt` calls
`fmt.format(float(val))`; that float round-trip is an external computation,
supplied as the `ffmt` argument (`ffmt prec val = none` models the raised
exception). -/

/-- One table cell: the texts of the flowables placed in it. -/
abbrev TableCell := List String

/-- Abstracted reportlab flowables. -/
inductive RenderElement where
  | par (text : String)
  | spacer
  | table (rows : List (List TableCell))
deriving DecidableEq

/-- Caller-supplied registry metadata, already formatted to strings
(the `params` dict of lines 486-491). -/
structure Params where
  num_registro : String
  tipo_registro : String
  num_rcf : String
  fecha_hora_registro : String

/-- Type of the external float-formatting oracle: decimal places ↦ raw text ↦
formatted text, `none` when `float(val)` (or the format) raises. -/
abbrev FloatFmt := Nat → String → Option String

/-- Embedding of the local helper `_fmt(val, fmt)` (lines 346-350): the
formatted value, or the raw text when float conversion fails.  The dict values
the renderer passes are never Python `None`, so the `"N/A"` fallback for
`None` is unreachable. -/
def fmt_or_raw (ffmt : FloatFmt) (prec : Nat) (val : String) : String :=
  (ffmt prec val).getD val

/-- Header band (lines 275-302): title and invoice facts beside the boxed
registry-metadata panel. -/
def header_section (invoice : InvoiceData) (parametros : Params) : List RenderElement :=
  let titulo := "Factura"
  let info_factura :=
    "<b>Fecha de Emisión:</b> " ++ invoice.fecha ++
    " <b>Número:</b> " ++ invoice.numeroFactura ++
    "<br/><b>Clase de factura:</b> " ++ invoice.claseFactura ++
    " <b>Moneda:</b> " ++ invoice.moneda
  let info_extra :=
    "<b>Num.Registro:</b> " ++ parametros.num_registro ++
    "<br/><b>Punto de Entrada:</b> " ++ parametros.tipo_registro ++
    "<br/><b>Num.Factura RCF:</b> " ++ parametros.num_rcf ++
    "<br/><b>Fecha y hora registro:</b> " ++ parametros.fecha_hora_registro
  [.table [[[titulo, info_factura], [info_extra]]], .spacer]

/-- Two-column parties block (lines 304-335). -/
def parties_section (invoice : InvoiceData) : List RenderElement :=
  let emisor := invoice.emisor
  let receptor := invoice.receptor
  let receptor_info :=
    "<b>Nombre:</b> " ++ dget receptor ("Nombre") ("N/A") ++
    "<br/><b>NIF:</b> " ++ dget receptor ("NIF") ("N/A") ++
    "<br/><b>Dirección:</b> " ++ dget receptor ("Dirección") ("N/A") ++
    "<br/><b>Ofi.Cont.:</b> " ++ dget receptor ("OfiCont") ("N/A") ++
    "<br/><b>Org.Gest:</b> " ++ dget receptor ("OrgGest") ("N/A") ++
    "<br/><b>Und.Tram:</b> " ++ dget receptor ("UndTram") ("N/A")
  let emisor_info :=
    "<b>Nombre:</b> " ++ dget emisor ("Nombre") ("N/A") ++
    "<br/><b>NIF:</b> " ++ dget emisor ("NIF") ("N/A") ++
    "<br/><b>Dirección:</b> " ++ dget emisor ("Dirección") ("N/A") ++
    "<br/><b>Poblacion:</b> " ++ dget emisor ("Poblacion") ("N/A") ++
    "<br/><b>Cod.Postal:</b> " ++ dget emisor ("Cod.Postal") ("N/A") ++
    "<br/><b>Provincia:</b> " ++ dget emisor ("Provincia") ("N/A")
  [.table [[["<b>EMISOR</b>"], ["<b>RECEPTOR</b>"]],
           [[emisor_info], [receptor_info]]],
   .spacer]

/-- Line-items table rows (lines 339-357): header row plus one row per item. -/
def items_rows (ffmt : FloatFmt) (items : List Dict) : List (List TableCell) :=
  [["Descripción"], ["Cantidad"], ["Precio Unitario"], ["Importe"]] ::
    items.map fun item =>
      [[dget item ("Descripción") ("N/A")],
       [fmt_or_raw ffmt 2 (dget item ("Cantidad") ("0"))],
       [fmt_or_raw ffmt 4 (dget item ("Precio Unitario") ("0"))],
       [fmt_or_raw ffmt 2 (dget item ("Importe") ("0"))]]

/-- Line-items section (lines 337-371): the table when at least one item
exists, otherwise the fixed "no items" paragraph. -/
def items_section (ffmt : FloatFmt) (invoice : InvoiceData) : List RenderElement :=
  let items := invoice.conceptos
  if items ≠ [] then
    [.table (items_rows ffmt items), .spacer]
  else
    [.par "No hay conceptos en la factura.", .spacer]

/-- Rows of the totals table (lines 375-382): six labelled, right-aligned
values read from the totals dict with default `"N/A"`. -/
def totals_data (totals : Dict) : List (List TableCell) :=
  [[["<b>Importe bruto total:</b>"], [dget totals ("TotalGrossAmount") ("N/A")]],
   [["<b>Descuentos generales:</b>"], [dget totals ("TotalGeneralDiscounts") ("N/A")]],
   [["<b>Base imponible antes de impuestos:</b>"], [dget totals ("TotalGrossAmountBeforeTaxes") ("N/A")]],
   [["<b>Importe de impuestos:</b>"], [dget totals ("TotalTaxOutputs") ("N/A")]],
   [["<b>Retenciones:</b>"], [dget totals ("TotalTaxesWithheld") ("N/A")]],
   [["<b>Importe total factura:</b>"], [dget totals ("InvoiceTotal") ("N/A")]]]

/-- Totals section (lines 373-390): rendered only when the totals dict is
non-empty (Python truthiness of `invoice.get("Totales", {})`). -/
def totals_section (invoice : InvoiceData) : List RenderElement :=
  let totals := invoice.totales
  if totals ≠ [] then
    [.table (totals_data totals), .spacer]
  else
    []

/-- Additional-information section (lines 392-395): only when non-empty. -/
def info_adicional_section (invoice : InvoiceData) : List RenderElement :=
  if invoice.infoAdicional ≠ "" then
    [.par "<b>Información Adicional:</b>", .par invoice.infoAdicional, .spacer]
  else
    []

/-- Legal-references section (lines 397-401): only when non-empty, one
paragraph per reference in order. -/
def referencias_section (invoice : InvoiceData) : List RenderElement :=
  if invoice.referenciasLegales ≠ [] then
    .par "<b>Literales Legales:</b>" ::
      invoice.referenciasLegales.map RenderElement.par ++ [.spacer]
  else
    []

/-- Signature section (lines 403-449): only when the firma dict is truthy and
its estado starts with "Firma". -/
def firma_section (invoice : InvoiceData) : List RenderElement :=
  let firma := invoice.firma
  if firma ≠ [] ∧ py_startswith (dget firma ("estado") ("")) ("Firma") then
    [.spacer, .par "Firma electrónica", .spacer,
     .table
       [[["<b>Firmante:</b>"], [dget firma ("firmante") ("N/A")],
         ["<b>NIF:</b>"], [dget firma ("nif") ("N/A")],
         ["<b>Algoritmo:</b>"], [dget firma ("algoritmo") ("N/A")]],
        [["<b>Fecha Firma:</b>"], [dget firma ("fecha_firma") ("N/A")],
         ["<b>Desde:</b>"], [dget firma ("valido_desde") ("N/A")],
         ["<b>Hasta:</b>"], [dget firma ("valido_hasta") ("N/A")]],
        [["<b>Estado actual:</b>"], [dget firma ("estado_certificado") ("N/A")],
         ["<b>Validez en firma:</b>"], [dget firma ("validez_en_firma") ("N/A")],
         ["<b>Autoridad Certificación:</b>"], [dget firma ("autoridad_certificadora") ("N/A")]]],
     .spacer]
  else
    []

/-- Embedding of `_generate_pdf_from_invoice`: the flowable list handed to
`doc.build`, section by section in source order. -/
def generate_pdf_from_invoice (ffmt : FloatFmt) (invoice : InvoiceData)
    (parametros : Params) : List RenderElement :=
  header_section invoice parametros ++
  parties_section invoice ++
  items_section ffmt invoice ++
  totals_section invoice ++
  info_adicional_section invoice ++
  referencias_section invoice ++
  firma_section invoice

/-! ### Pipeline entry point (`render_pdf_from_xsig`) -/

/-- Embedding of `render_pdf_from_xsig`.  `parse` models `ET.fromstring`
(`.error e` is the caught parse exception), `ffmt` the float formatter, `now`
the evaluation clock, and the result is `.error msg` exactly where the Python
function raises `ValueError(msg)`. -/
def render_pdf_from_xsig (parse : List Nat → Except String XmlDoc)
    (ffmt : FloatFmt) (now : Int) (xsig_bytes : List Nat) (params : Params) :
    Except String (List RenderElement) :=
  if xsig_bytes = [] then
    .error "Archivo vacío o no legible."
  else
    let xml_bytes := extract_xml_from_xsig_bytes xsig_bytes
    match parse xml_bytes with
    | .error e => .error ("El archivo no parece un XSIG/XML válido: " ++ e)
    | .ok root =>
      let invoice_data := extract_invoice_data_from_xml now root
      .ok (generate_pdf_from_invoice ffmt invoice_data params)

/-! ### Concrete example documents -/

/-- Signature environment of a document with no signature block at all. -/
def noSigEnv : SignatureEnv :=
  { x509CertificateText := none
    certificate := .error "no certificate bytes"
    signingTimeText := none
    signingTimeParse := .error "Unknown string format" }

/-- A document where every optional lookup failed. -/
def emptyDoc : XmlDoc :=
  { sellerParty := none
    buyerParty := none
    invoiceAdditionalInformation := none
    legalReferences := []
    invoice := none
    signature := noSigEnv }

/-- An `InvoiceTotals` subtree present but with every child element absent. -/
def bareTotalsQ : InvoiceTotalsQ :=
  { totalGrossAmount := none
    totalGeneralDiscounts := none
    totalGrossAmountBeforeTaxes := none
    totalTaxOutputs := none
    totalTaxesWithheld := none
    invoiceTotal := none
    totalOutstandingAmount := none
    totalExecutableAmount := none }

/-- An invoice element carrying only a bare totals subtree. -/
def bareInvoiceQ : InvoiceQ :=
  { invoiceNumber := none
    invoiceSeriesCode := none
    invoiceDocumentType := none
    invoiceCurrencyCode := none
    issueDate := none
    invoiceClass := none
    invoiceTotals := some bareTotalsQ
    invoiceLines := [] }

/-- A document whose invoice element and totals subtree exist. -/
def docWithTotals : XmlDoc :=
  { sellerParty := none
    buyerParty := none
    invoiceAdditionalInformation := none
    legalReferences := []
    invoice := some bareInvoiceQ
    signature := noSigEnv }

/-! ### Lemmas about `first_index` and `last_index` -/

theorem first_index_isPrefixOf {pat : List Nat} :
    ∀ {l : List Nat} {i : Nat}, first_index pat l = some i →
      pat.isPrefixOf (l.drop i) = true := by
  intro l
  induction l with
  | nil =>
    intro i h
    simp only [first_index] at h
    split at h
    · rename_i hp
      cases h
      simp [hp, List.isPrefixOf]
    · cases h
  | cons a t ih =>
    intro i h
    simp only [first_index] at h
    split at h
    · rename_i hp
      cases h
      simpa using hp
    · rcases Option.map_eq_some'.1 h with ⟨j, hj, rfl⟩
      simpa using ih hj

theorem isPrefixOf_first_index {pat l : List Nat}
    (h : pat.isPrefixOf l = true) : first_index pat l = some 0 := by
  cases l with
  | nil =>
    have : pat = [] := by
      cases pat with
      | nil => rfl
      | cons a t => simp [List.isPrefixOf] at h
    simp [first_index, this]
  | cons a t => simp [first_index, h]

/-- Unfolding equation for `last_index` on a cons cell. -/
theorem last_index_cons (c a : Nat) (t : List Nat) :
    last_index c (a :: t) =
      match last_index c t with
      | some j => some (j + 1)
      | none => if a = c then some 0 else none := rfl

theorem last_index_get :
    ∀ {l : List Nat} {c j : Nat}, last_index c l = some j → l[j]? = some c := by
  intro l
  induction l with
  | nil => intro c j h; simp [last_index] at h
  | cons a t ih =>
    intro c j h
    rw [last_index_cons] at h
    cases hl : last_index c t with
    | some j0 =>
      rw [hl] at h
      simp only [Option.some.injEq] at h
      subst h
      simpa using ih hl
    | none =>
      rw [hl] at h
      have h2 : (if a = c then some 0 else none : Option Nat) = some j := h
      by_cases hac : a = c
      · rw [if_pos hac] at h2
        simp only [Option.some.injEq] at h2
        subst h2
        simp [hac]
      · rw [if_neg hac] at h2
        cases h2

theorem last_index_getLast :
    ∀ {l : List Nat} {c : Nat}, l.getLast? = some c →
      last_index c l = some (l.length - 1) := by
  intro l
  induction l with
  | nil => intro c h; simp at h
  | cons a t ih =>
    intro c h
    cases t with
    | nil =>
      simp only [List.getLast?_singleton, Option.some.injEq] at h
      subst h
      simp [last_index]
    | cons b u =>
      have hlast : (b :: u).getLast? = some c := by
        rw [List.getLast?_cons_cons] at h
        exact h
      have ih2 := ih hlast
      rw [last_index_cons, ih2]
      simp

theorem first_index_marker_byte {b : List Nat} {i : Nat}
    (h : first_index xml_marker b = some i) : b[i]? = some 60 := by
  have hp := first_index_isPrefixOf h
  rcases List.isPrefixOf_iff_prefix.1 hp with ⟨r, hr⟩
  have h0 : (b.drop i)[0]? = some 60 := by
    rw [← hr]; rfl
  rw [List.getElem?_drop] at h0
  simpa using h0

theorem lt_length_of_getElem? {l : List Nat} {j c : Nat}
    (h : l[j]? = some c) : j < l.length := by
  by_contra hge
  push_neg at hge
  rw [List.getElem?_eq_none hge] at h
  cases h

/-- A last `>` strictly after a marker occurrence lies at least five bytes
further: the four bytes following the `<` of `<?xml` are not `>`. -/
theorem marker_gap {b : List Nat} {i j : Nat}
    (hf : first_index xml_marker b = some i) (hj : b[j]? = some 62)
    (hij : i < j) : i + 5 ≤ j := by
  by_contra hlt
  push_neg at hlt
  have hp := first_index_isPrefixOf hf
  rcases List.isPrefixOf_iff_prefix.1 hp with ⟨r, hr⟩
  have h1 : b[j]? = (b.drop i)[j - i]? := by
    rw [List.getElem?_drop]
    congr 1
    omega
  have h2 : (b.drop i)[j - i]? = xml_marker[j - i]? := by
    rw [← hr]
    exact List.getElem?_append_left (by simp [xml_marker]; omega)
  have h3 : xml_marker[j - i]? = some 62 := by
    rw [← h2, ← h1, hj]
  have hcases : j - i = 1 ∨ j - i = 2 ∨ j - i = 3 ∨ j - i = 4 := by omega
  rcases hcases with hk | hk | hk | hk <;> rw [hk] at h3 <;>
    simp [xml_marker] at h3

/-! ### Characterisation of the Container Extractor -/

theorem extract_eq_slice {b : List Nat} {i j : Nat}
    (hf : first_index xml_marker b = some i) (hl : last_index 62 b = some j)
    (hij : i < j) :
    extract_xml_from_xsig_bytes b = list_slice b i (j + 1) := by
  unfold extract_xml_from_xsig_bytes bfind brfind
  rw [hf, hl]
  have hcond : ((i : Int) ≠ -1 ∧ (j : Int) + 1 > (i : Int)) := by
    constructor
    · omega
    · omega
  rw [if_pos hcond]
  norm_num

theorem extract_eq_input_no_marker {b : List Nat}
    (hf : first_index xml_marker b = none) :
    extract_xml_from_xsig_bytes b = b := by
  unfold extract_xml_from_xsig_bytes bfind
  rw [hf]
  simp

theorem extract_eq_input_no_gt {b : List Nat} {i : Nat}
    (hf : first_index xml_marker b = some i) (hl : last_index 62 b = none) :
    extract_xml_from_xsig_bytes b = b := by
  unfold extract_xml_from_xsig_bytes bfind brfind
  rw [hf, hl]
  have : ¬ ((i : Int) ≠ -1 ∧ (-1 : Int) + 1 > (i : Int)) := by
    intro hc
    omega
  rw [if_neg this]

theorem extract_eq_input_gt_before {b : List Nat} {i j : Nat}
    (hf : first_index xml_marker b = some i) (hl : last_index 62 b = some j)
    (hji : j < i) :
    extract_xml_from_xsig_bytes b = b := by
  unfold extract_xml_from_xsig_bytes bfind brfind
  rw [hf, hl]
  have : ¬ ((i : Int) ≠ -1 ∧ (j : Int) + 1 > (i : Int)) := by
    intro hc
    omega
  rw [if_neg this]

/-- The marker index and the last-`>` index are never equal: the bytes there
differ. -/
theorem marker_ne_gt {b : List Nat} {i j : Nat}
    (hf : first_index xml_marker b = some i) (hl : last_index 62 b = some j) :
    i ≠ j := by
  intro hij
  have h1 := first_index_marker_byte hf
  have h2 := last_index_get hl
  rw [hij, h2] at h1
  cases h1

/-- The successful slice is a fixed point of the extractor: it starts with the
marker and ends with its last `>`. -/
theorem extract_slice_fixed {b : List Nat} {i j : Nat}
    (hf : first_index xml_marker b = some i) (hl : last_index 62 b = some j)
    (hij : i < j) :
    extract_xml_from_xsig_bytes (list_slice b i (j + 1)) = list_slice b i (j + 1) := by
  have hj62 : b[j]? = some 62 := last_index_get hl
  have hjlen : j < b.length := lt_length_of_getElem? hj62
  have hgap : i + 5 ≤ j := marker_gap hf hj62 hij
  have hp := first_index_isPrefixOf hf
  rcases List.isPrefixOf_iff_prefix.1 hp with ⟨r, hr⟩
  set y := list_slice b i (j + 1) with hy
  have hylen : y.length = j + 1 - i := by
    rw [hy]
    unfold list_slice
    rw [List.length_take, List.length_drop]
    omega
  have hmarklen : xml_marker.length = 5 := by rfl
  have hysplit : y = xml_marker ++ r.take (j + 1 - i - 5) := by
    rw [hy]
    unfold list_slice
    rw [← hr, List.take_append_eq_append_take, hmarklen]
    congr 1
    exact List.take_of_length_le (by rw [hmarklen]; omega)
  have hypre : xml_marker.isPrefixOf y = true := by
    rw [hysplit]
    exact List.isPrefixOf_iff_prefix.2 ⟨_, rfl⟩
  have hfy : first_index xml_marker y = some 0 := isPrefixOf_first_index hypre
  have hylast : y[y.length - 1]? = some 62 := by
    rw [hylen, hy]
    unfold list_slice
    rw [List.getElem?_take, if_pos (by omega), List.getElem?_drop]
    have harith : i + (j + 1 - i - 1) = j := by omega
    rw [harith, hj62]
  have hgl : y.getLast? = some 62 := by
    rw [List.getLast?_eq_getElem?]
    exact hylast
  have hly : last_index 62 y = some (y.length - 1) := last_index_getLast hgl
  have h0lt : 0 < y.length - 1 := by omega
  have := extract_eq_slice hfy hly h0lt
  rw [this]
  unfold list_slice
  rw [List.drop_zero]
  have : y.length - 1 + 1 - 0 = y.length := by omega
  rw [this, List.take_length]

/-- Claim C7: for every input byte sequence, the Container Extractor returns
the inclusive byte slice from the first occurrence of the prolog marker
`<?xml` to the last occurrence of the byte `>` whenever the marker is found
and its position precedes that last `>`; in every other case (marker absent,
no `>` at all, or the last `>` not after the marker) it returns the input
bytes unchanged.  It never fails (it is a total function). -/
theorem extractor_slice_contract (b : List Nat) :
    (∀ i j, first_index xml_marker b = some i → last_index 62 b = some j →
       i < j → extract_xml_from_xsig_bytes b = list_slice b i (j + 1)) ∧
    (first_index xml_marker b = none → extract_xml_from_xsig_bytes b = b) ∧
    (∀ i, first_index xml_marker b = some i → last_index 62 b = none →
       extract_xml_from_xsig_bytes b = b) ∧
    (∀ i j, first_index xml_marker b = some i → last_index 62 b = some j →
       ¬ i < j → extract_xml_from_xsig_bytes b = b) := by
  refine ⟨?_, ?_, ?_, ?_⟩
  · intro i j hf hl hij
    exact extract_eq_slice hf hl hij
  · intro hf
    exact extract_eq_input_no_marker hf
  · intro i hf hl
    exact extract_eq_input_no_gt hf hl
  · intro i j hf hl hij
    have hne := marker_ne_gt hf hl
    exact extract_eq_input_gt_before hf hl (by omega)

/-- Witness for C7: on `b"<?xml>"` the marker is at 0, the last `>` at 5, and
the extractor returns the inclusive slice (here the whole input); on
`b"a>b"` the marker is absent and the input passes through unchanged. -/
theorem extractor_slice_contract_witness :
    first_index xml_marker [60, 63, 120, 109, 108, 62] = some 0 ∧
    last_index 62 [60, 63, 120, 109, 108, 62] = some 5 ∧
    extract_xml_from_xsig_bytes [60, 63, 120, 109, 108, 62] =
      list_slice [60, 63, 120, 109, 108, 62] 0 6 ∧
    first_index xml_marker [97, 62, 98] = none ∧
    extract_xml_from_xsig_bytes [97, 62, 98] = [97, 62, 98] := by
  refine ⟨by decide, by decide, ?_, by decide, ?_⟩
  · exact (extractor_slice_contract _).1 0 5 (by decide) (by decide) (by decide)
  · exact (extractor_slice_contract _).2.1 (by decide)

/-- Claim C10: the Container Extractor is idempotent — applying it to its own
output returns that output unchanged. -/
theorem extractor_idempotent (b : List Nat) :
    extract_xml_from_xsig_bytes (extract_xml_from_xsig_bytes b) =
      extract_xml_from_xsig_bytes b := by
  cases hf : first_index xml_marker b with
  | none =>
    rw [extract_eq_input_no_marker hf]
    exact extract_eq_input_no_marker hf
  | some i =>
    cases hl : last_index 62 b with
    | none =>
      rw [extract_eq_input_no_gt hf hl]
      exact extract_eq_input_no_gt hf hl
    | some j =>
      by_cases hij : i < j
      · rw [extract_eq_slice hf hl hij]
        exact extract_slice_fixed hf hl hij
      · have hne := marker_ne_gt hf hl
        have hji : j < i := by omega
        rw [extract_eq_input_gt_before hf hl hji]
        exact extract_eq_input_gt_before hf hl hji

/-! ### Certificate Interpreter claims -/

/-- Claim C3: for every validity window with `validFrom ≤ validUntil` and
every evaluation instant, the current-validity classification is total (one of
the three state strings is always produced) and exclusive (each state holds
exactly on its region: strictly before the window, strictly after it, and the
inclusive window itself), with both boundary instants classified as valid. -/
theorem validity_classification_total_exclusive
    (now valido_desde valido_hasta : Int) (h : valido_desde ≤ valido_hasta) :
    (estado_certificado_of now valido_desde valido_hasta =
        "Certificado aún no válido (vigencia futura)" ∨
     estado_certificado_of now valido_desde valido_hasta = "Certificado caducado" ∨
     estado_certificado_of now valido_desde valido_hasta =
        "Certificado actualmente válido") ∧
    (estado_certificado_of now valido_desde valido_hasta =
        "Certificado aún no válido (vigencia futura)" ↔ now < valido_desde) ∧
    (estado_certificado_of now valido_desde valido_hasta =
        "Certificado caducado" ↔ valido_hasta < now) ∧
    (estado_certificado_of now valido_desde valido_hasta =
        "Certificado actualmente válido" ↔
        (valido_desde ≤ now ∧ now ≤ valido_hasta)) ∧
    estado_certificado_of valido_desde valido_desde valido_hasta =
      "Certificado actualmente válido" ∧
    estado_certificado_of valido_hasta valido_desde valido_hasta =
      "Certificado actualmente válido" := by
  have hne1 : ("Certificado aún no válido (vigencia futura)" : String) ≠
      "Certificado caducado" := by decide
  have hne2 : ("Certificado aún no válido (vigencia futura)" : String) ≠
      "Certificado actualmente válido" := by decide
  have hne3 : ("Certificado caducado" : String) ≠
      "Certificado actualmente válido" := by decide
  refine ⟨?_, ?_, ?_, ?_, ?_, ?_⟩
  · unfold estado_certificado_of
    split_ifs <;> simp
  · constructor
    · intro hx
      by_contra hnot
      unfold estado_certificado_of at hx
      rw [if_neg hnot] at hx
      by_cases h2 : now > valido_hasta
      · rw [if_pos h2] at hx
        exact hne1 hx.symm
      · rw [if_neg h2] at hx
        exact hne2 hx.symm
    · intro hlt
      unfold estado_certificado_of
      rw [if_pos hlt]
  · constructor
    · intro hx
      unfold estado_certificado_of at hx
      by_cases h1 : now < valido_desde
      · rw [if_pos h1] at hx
        exact absurd hx hne1
      · rw [if_neg h1] at hx
        by_cases h2 : now > valido_hasta
        · omega
        · rw [if_neg h2] at hx
          exact absurd hx.symm hne3
    · intro hgt
      unfold estado_certificado_of
      rw [if_neg (by omega), if_pos (by omega)]
  · constructor
    · intro hx
      unfold estado_certificado_of at hx
      by_cases h1 : now < valido_desde
      · rw [if_pos h1] at hx
        exact absurd hx hne2
      · by_cases h2 : now > valido_hasta
        · rw [if_neg h1, if_pos h2] at hx
          exact absurd hx hne3
        · omega
    · intro hin
      unfold estado_certificado_of
      rw [if_neg (by omega), if_neg (by omega)]
  · unfold estado_certificado_of
    rw [if_neg (lt_irrefl valido_desde), if_neg (by omega)]
  · unfold estado_certificado_of
    rw [if_neg (by omega), if_neg (lt_irrefl valido_hasta)]

/-- Witness for C3: window `[-1, 1]` evaluated at `0` is valid, at `-2` not
yet valid, at `2` expired, and both boundaries are valid. -/
theorem validity_classification_total_exclusive_witness :
    ((-1 : Int) ≤ 1) ∧
    estado_certificado_of 0 (-1) 1 = "Certificado actualmente válido" ∧
    estado_certificado_of (-2) (-1) 1 =
      "Certificado aún no válido (vigencia futura)" ∧
    estado_certificado_of 2 (-1) 1 = "Certificado caducado" ∧
    estado_certificado_of (-1) (-1) 1 = "Certificado actualmente válido" ∧
    estado_certificado_of 1 (-1) 1 = "Certificado actualmente válido" := by
  refine ⟨by decide, ?_, ?_, ?_, ?_, ?_⟩
  · exact (validity_classification_total_exclusive 0 (-1) 1 (by decide)).2.2.2.1.mpr
      (by constructor <;> decide)
  · exact (validity_classification_total_exclusive (-2) (-1) 1 (by decide)).2.1.mpr
      (by decide)
  · exact (validity_classification_total_exclusive 2 (-1) 1 (by decide)).2.2.1.mpr
      (by decide)
  · exact (validity_classification_total_exclusive (-1) (-1) 1 (by decide)).2.2.2.2.1
  · exact (validity_classification_total_exclusive 1 (-1) 1 (by decide)).2.2.2.2.2

/-- Claim C4: when the signing-time text parses, its timezone offset is
discarded (the verdict depends only on the naive wall-clock instant) and the
verdict is the valid-at-signing string exactly when that instant lies in the
inclusive validity window, the invalid-at-signing string otherwise; when
parsing fails the verdict is the indeterminate string carrying the
parse-failure reason. -/
theorem signing_validity_spec (valido_desde valido_hasta : Int) :
    (∀ dtv : ParsedDatetime,
       (validez_en_firma_of (.ok dtv) valido_desde valido_hasta =
           "Certificado válido en la fecha de la firma" ↔
           (valido_desde ≤ dtv.wall ∧ dtv.wall ≤ valido_hasta)) ∧
       (validez_en_firma_of (.ok dtv) valido_desde valido_hasta =
           "Certificado NO era válido en la fecha de la firma" ↔
           ¬ (valido_desde ≤ dtv.wall ∧ dtv.wall ≤ valido_hasta))) ∧
    (∀ wall off,
       validez_en_firma_of (.ok ⟨wall, some off⟩) valido_desde valido_hasta =
         validez_en_firma_of (.ok ⟨wall, none⟩) valido_desde valido_hasta) ∧
    (∀ e, validez_en_firma_of (.error e) valido_desde valido_hasta =
       "No se pudo validar la fecha de firma: " ++ e) := by
  have hne : ("Certificado válido en la fecha de la firma" : String) ≠
      "Certificado NO era válido en la fecha de la firma" := by decide
  have hok : ∀ dtv : ParsedDatetime,
      validez_en_firma_of (.ok dtv) valido_desde valido_hasta =
        if valido_desde ≤ dtv.wall ∧ dtv.wall ≤ valido_hasta then
          "Certificado válido en la fecha de la firma"
        else "Certificado NO era válido en la fecha de la firma" := fun _ => rfl
  refine ⟨?_, ?_, ?_⟩
  · intro dtv
    rw [hok dtv]
    constructor
    · split_ifs with hin
      · simp [hin]
      · simp [hne.symm, hin]
    · split_ifs with hin
      · simp [hne, hin]
      · simp [hin]
  · intro wall off
    rfl
  · intro e
    rfl

/-- Witness for C4: at window `[-1, 1]`, instant `0` with a discarded offset
is valid at signing, instant `5` is not, and a parse failure yields the
indeterminate diagnostic. -/
theorem signing_validity_spec_witness :
    validez_en_firma_of (.ok ⟨0, some 3600⟩) (-1) 1 =
      "Certificado válido en la fecha de la firma" ∧
    validez_en_firma_of (.ok ⟨5, none⟩) (-1) 1 =
      "Certificado NO era válido en la fecha de la firma" ∧
    validez_en_firma_of (.error "Unknown string format") (-1) 1 =
      "No se pudo validar la fecha de firma: Unknown string format" := by
  refine ⟨?_, ?_, ?_⟩
  · exact ((signing_validity_spec (-1) 1).1 ⟨0, some 3600⟩).1.mpr
      (by constructor <;> decide)
  · exact ((signing_validity_spec (-1) 1).1 ⟨5, none⟩).2.mpr (by decide)
  · exact (signing_validity_spec (-1) 1).2.2 "Unknown string format"

/-- The error-branch estado never passes the renderer's `startswith("Firma")`
test, whatever the exception message. -/
theorem error_estado_not_firma (e : String) :
    py_startswith ("Error al extraer firma: " ++ e) ("Firma") = false := by
  unfold py_startswith
  rw [String.data_append]
  have h1 : ("Firma" : String).data = ['F', 'i', 'r', 'm', 'a'] := rfl
  have h2 : ("Error al extraer firma: " : String).data =
      'E' :: ("rror al extraer firma: " : String).data := rfl
  rw [h1, h2]
  simp [List.isPrefixOf]

/-- Claim C5: the Certificate Interpreter is total and degrades instead of
failing: its result always carries an `estado` field, and on each modelled
failure path (certificate value absent or empty, base64/X.509 processing
raising) the result is the degraded dict whose `estado` is a non-empty
diagnostic not marking a found signature. -/
theorem signature_extraction_never_fatal (now : Int) (env : SignatureEnv) :
    dmem (extract_signature_info_from_xml now env) ("estado") = true ∧
    (ftext env.x509CertificateText "" = "" →
       extract_signature_info_from_xml now env =
         [("estado", "No se encontró certificado")] ∧
       sig_found (extract_signature_info_from_xml now env) = false ∧
       dget (extract_signature_info_from_xml now env) ("estado") ("") ≠ "") ∧
    (∀ e, ftext env.x509CertificateText "" ≠ "" → env.certificate = .error e →
       extract_signature_info_from_xml now env =
         [("estado", "Error al extraer firma: " ++ e)] ∧
       sig_found (extract_signature_info_from_xml now env) = false ∧
       dget (extract_signature_info_from_xml now env) ("estado") ("") ≠ "") := by
  refine ⟨?_, ?_, ?_⟩
  · by_cases hempty : ftext env.x509CertificateText "" = ""
    · have hres : extract_signature_info_from_xml now env =
          [("estado", "No se encontró certificado")] := by
        simp only [extract_signature_info_from_xml]
        rw [if_pos hempty]
      rw [hres]
      rfl
    · cases hc : env.certificate with
      | error e =>
        have hres : extract_signature_info_from_xml now env =
            [("estado", "Error al extraer firma: " ++ e)] := by
          simp only [extract_signature_info_from_xml]
          rw [if_neg hempty, hc]
        rw [hres]
        rfl
      | ok cert =>
        simp only [extract_signature_info_from_xml]
        rw [if_neg hempty, hc]
        rfl
  · intro hempty
    have hres : extract_signature_info_from_xml now env =
        [("estado", "No se encontró certificado")] := by
      simp only [extract_signature_info_from_xml]
      rw [if_pos hempty]
    refine ⟨hres, ?_, ?_⟩
    · rw [hres]
      decide
    · rw [hres]
      decide
  · intro e hnonempty herr
    have hres : extract_signature_info_from_xml now env =
        [("estado", "Error al extraer firma: " ++ e)] := by
      simp only [extract_signature_info_from_xml]
      rw [if_neg hnonempty, herr]
    refine ⟨hres, ?_, ?_⟩
    · rw [hres]
      unfold sig_found
      have hd : dget [("estado", "Error al extraer firma: " ++ e)] ("estado") ("") =
          "Error al extraer firma: " ++ e := rfl
      rw [hd]
      exact error_estado_not_firma e
    · rw [hres]
      have hd : dget [("estado", "Error al extraer firma: " ++ e)] ("estado") ("") =
          "Error al extraer firma: " ++ e := rfl
      rw [hd]
      intro hcontra
      have : ("Error al extraer firma: " ++ e).length = 0 := by
        rw [hcontra]
        rfl
      rw [String.length_append] at this
      have h24 : ("Error al extraer firma: " : String).length = 24 := by decide
      omega

/-- Witness for C5: the two failure paths evaluated on concrete environments
with an absent certificate value and a failing certificate parse. -/
theorem signature_extraction_never_fatal_witness :
    extract_signature_info_from_xml 0 noSigEnv =
      [("estado", "No se encontró certificado")] ∧
    sig_found (extract_signature_info_from_xml 0 noSigEnv) = false ∧
    extract_signature_info_from_xml 0
        { noSigEnv with x509CertificateText := some "AAAA",
                        certificate := .error "bad DER" } =
      [("estado", "Error al extraer firma: bad DER")] ∧
    sig_found (extract_signature_info_from_xml 0
        { noSigEnv with x509CertificateText := some "AAAA",
                        certificate := .error "bad DER" }) = false := by
  refine ⟨?_, ?_, ?_, ?_⟩
  · exact ((signature_extraction_never_fatal 0 noSigEnv).2.1 (by decide)).1
  · exact ((signature_extraction_never_fatal 0 noSigEnv).2.1 (by decide)).2.1
  · exact ((signature_extraction_never_fatal 0 _).2.2 "bad DER" (by decide) rfl).1
  · exact ((signature_extraction_never_fatal 0 _).2.2 "bad DER" (by decide) rfl).2.1

/-! ### Invoice Mapper claim: legal-reference filtering -/

/-- A string strips to empty exactly when all of its characters are Python
whitespace (in particular, when it is empty). -/
theorem pyStrip_eq_empty_iff (s : String) :
    pyStrip s = "" ↔ s.data.all pyIsSpace = true := by
  unfold pyStrip
  have hmk : ∀ l : List Char, String.mk l = "" ↔ l = [] := by
    intro l
    constructor
    · intro h
      have := congrArg String.data h
      simpa using this
    · intro h
      rw [h]
  rw [hmk, List.reverse_eq_nil_iff, List.dropWhile_eq_nil_iff]
  constructor
  · intro h
    rw [List.all_eq_true]
    intro x hx
    by_cases hxd : x ∈ (s.data.dropWhile pyIsSpace)
    · exact h x (by simpa using hxd)
    · have hsplit := List.takeWhile_append_dropWhile pyIsSpace s.data
      rw [← hsplit] at hx
      rcases List.mem_append.1 hx with hxt | hxd2
      · exact List.mem_takeWhile_imp hxt
      · exact absurd hxd2 hxd
  · intro h x hx
    rw [List.all_eq_true] at h
    have hxs : x ∈ s.data := by
      have hxd : x ∈ s.data.dropWhile pyIsSpace := by simpa using hx
      have hsplit := List.takeWhile_append_dropWhile pyIsSpace s.data
      rw [← hsplit]
      exact List.mem_append.2 (Or.inr hxd)
    exact h x hxs
  -- `String.toList` is definitionally `String.data`

/-- The filtering condition of line 141 coincides with "the text is not
whitespace-only" (non-emptiness is subsumed: empty text strips to empty). -/
theorem filter_condition_iff (s : String) :
    (s ≠ "" ∧ pyStrip s ≠ "") ↔ s.data.all pyIsSpace = false := by
  constructor
  · rintro ⟨hs1, hs2⟩
    cases hb : s.data.all pyIsSpace with
    | false => rfl
    | true => exact absurd ((pyStrip_eq_empty_iff s).2 hb) hs2
  · intro hall
    have hstrip : pyStrip s ≠ "" := by
      intro hc
      rw [(pyStrip_eq_empty_iff s).1 hc] at hall
      cases hall
    refine ⟨?_, hstrip⟩
    intro hempty
    subst hempty
    cases hall

/-- Predicate from the claim's words: the entry carries text that is
non-empty and not whitespace-only. -/
def non_blank_text (t : Option String) : Bool :=
  match t with
  | some s => ! s.data.all pyIsSpace
  | none => false

/-- Cons equation for `legal_references_of` on an entry with text. -/
theorem legal_references_of_cons_some (s : String) (ts : List (Option String)) :
    legal_references_of (some s :: ts) =
      if s ≠ "" ∧ pyStrip s ≠ "" then pyStrip s :: legal_references_of ts
      else legal_references_of ts := by
  simp only [legal_references_of, List.filterMap_cons]
  split_ifs <;> rfl

/-- Claim C8: the mapper's legal-reference list consists exactly of the
non-blank entries, each stripped, in their original order, and its length
equals the count of non-blank entries. -/
theorem legal_reference_filtering (texts : List (Option String)) :
    legal_references_of texts =
      ((texts.filterMap id).filter (fun s => ! s.data.all pyIsSpace)).map pyStrip ∧
    (legal_references_of texts).length = texts.countP non_blank_text := by
  have hmain : legal_references_of texts =
      ((texts.filterMap id).filter (fun s => ! s.data.all pyIsSpace)).map pyStrip := by
    induction texts with
    | nil => rfl
    | cons t ts ih =>
      cases t with
      | none =>
        have hfm : (none :: ts).filterMap (id : Option String → Option String) =
            ts.filterMap id := by
          simp
        have hlr : legal_references_of (none :: ts) = legal_references_of ts := rfl
        rw [hlr, hfm]
        exact ih
      | some s =>
        have hfm : (some s :: ts).filterMap (id : Option String → Option String) =
            s :: ts.filterMap id := by
          simp
        rw [legal_references_of_cons_some, hfm, List.filter_cons]
        by_cases hcond : s ≠ "" ∧ pyStrip s ≠ ""
        · have hall : s.data.all pyIsSpace = false := (filter_condition_iff s).1 hcond
          have hcb : (! s.data.all pyIsSpace) = true := by rw [hall]; rfl
          rw [if_pos hcond, if_pos hcb, List.map_cons]
          exact congrArg (pyStrip s :: ·) ih
        · have hall : s.data.all pyIsSpace = true := by
            cases hb : s.data.all pyIsSpace with
            | true => rfl
            | false => exact absurd ((filter_condition_iff s).2 hb) hcond
          have hcb : (! s.data.all pyIsSpace) = false := by rw [hall]; rfl
          rw [if_neg hcond, if_neg (by simp [hcb])]
          exact ih
  refine ⟨hmain, ?_⟩
  rw [hmain, List.length_map, ← List.countP_eq_length_filter]
  clear hmain
  induction texts with
  | nil => rfl
  | cons t ts ih =>
    cases t with
    | none =>
      have hfm : (none :: ts).filterMap (id : Option String → Option String) =
          ts.filterMap id := by
        simp
      rw [hfm, List.countP_cons]
      have hnbt : non_blank_text none = false := rfl
      rw [hnbt, ih]
      simp
    | some s =>
      have hfm : (some s :: ts).filterMap (id : Option String → Option String) =
          s :: ts.filterMap id := by
        simp
      rw [hfm, List.countP_cons, List.countP_cons, ih]
      rfl

/-! ### Invoice Mapper claim: issue-date reformatting -/

/-- The shape named by the spec sentence: 4-digit year, 2-digit month,
2-digit day, dash-separated.  Returns the numeric (year, month, day) read
from the digits when the text has exactly that shape. -/
def claim_components (s : String) : Option (Nat × Nat × Nat) :=
  match s.data.map Char.toNat with
  | [y1, y2, y3, y4, s1, m1, m2, s2, d1, d2] =>
    if s1 = 45 ∧ s2 = 45 ∧ is_digit_code y1 ∧ is_digit_code y2 ∧
        is_digit_code y3 ∧ is_digit_code y4 ∧ is_digit_code m1 ∧
        is_digit_code m2 ∧ is_digit_code d1 ∧ is_digit_code d2 then
      some (1000 * (y1 - 48) + 100 * (y2 - 48) + 10 * (y3 - 48) + (y4 - 48),
            10 * (m1 - 48) + (m2 - 48),
            10 * (d1 - 48) + (d2 - 48))
    else none
  | _ => none

/-- Whether the text matches the spec sentence's fixed input pattern. -/
def matches_claim_pattern (s : String) : Bool :=
  (claim_components s).isSome

/-- Every month value produced by the `%m` alternatives is between 1 and 12. -/
theorem month_alts_mem {cs : List Nat} {mv : Nat} {rest : List Nat}
    (h : (mv, rest) ∈ monthAlts cs) : 1 ≤ mv ∧ mv ≤ 12 := by
  rcases cs with _ | ⟨c1, _ | ⟨c2, cs0⟩⟩ <;>
    simp only [monthAlts, List.mem_append, List.mem_singleton,
      List.not_mem_nil, or_false, false_or] at h <;>
    split_ifs at h <;> simp_all <;> omega

/-- Every day value produced by the `%d` alternatives is between 1 and 31. -/
theorem day_alts_mem {cs : List Nat} {dv : Nat} {rest : List Nat}
    (h : (dv, rest) ∈ dayAlts cs) : 1 ≤ dv ∧ dv ≤ 31 := by
  rcases cs with _ | ⟨c1, _ | ⟨c2, cs0⟩⟩ <;>
    simp only [dayAlts, List.mem_append, List.mem_singleton,
      List.not_mem_nil, or_false, false_or] at h <;>
    split_ifs at h <;> simp_all <;> omega

/-- Months never exceed 31 days. -/
theorem days_in_month_le_31 (y m : Nat) : days_in_month y m ≤ 31 := by
  unfold days_in_month
  split_ifs <;> omega

/-- On a two-code-point tail, the `%d` alternatives resolve to the two-digit
day value whenever that value is a calendar-plausible day. -/
theorem day_findSome (Y M : Nat) {d1 d2 : Nat}
    (hdd : 48 ≤ d1 ∧ d1 ≤ 57 ∧ 48 ≤ d2 ∧ d2 ≤ 57)
    (hd : 1 ≤ 10 * (d1 - 48) + (d2 - 48) ∧ 10 * (d1 - 48) + (d2 - 48) ≤ 31) :
    (dayAlts [d1, d2]).findSome?
      (fun dc => if dc.2 = [] then some (Y, M, dc.1) else none) =
      some (Y, M, 10 * (d1 - 48) + (d2 - 48)) := by
  have hd1cases : d1 = 48 ∨ d1 = 49 ∨ d1 = 50 ∨ d1 = 51 := by omega
  rcases hd1cases with h | h | h | h <;> subst h <;>
    (simp only [dayAlts]; split_ifs <;>
      first
        | (exfalso; omega)
        | (exfalso; simp only [true_and, and_true] at *; omega)
        | simp [List.findSome?_cons])

/-- Soundness of the `%Y-%m-%d` pattern match: any accepted components are in
the regular expression's numeric ranges. -/
theorem strptime_match_spec {s : String} {y m d : Nat}
    (h : strptime_match_Ymd s = some (y, m, d)) :
    y ≤ 9999 ∧ 1 ≤ m ∧ m ≤ 12 ∧ 1 ≤ d ∧ d ≤ 31 := by
  unfold strptime_match_Ymd at h
  split at h
  case h_2 => cases h
  case h_1 ya yb yc yd ce rest heq =>
    split_ifs at h with hcond
    obtain ⟨mc, hmem, hmc⟩ := List.exists_of_findSome?_eq_some h
    split at hmc
    next c6 rest3 hmc2 =>
      split_ifs at hmc with h45
      obtain ⟨dc, hdmem, hdc⟩ := List.exists_of_findSome?_eq_some hmc
      split_ifs at hdc with hnil
      · simp only [Option.some.injEq, Prod.mk.injEq] at hdc
        obtain ⟨hy, hm, hd⟩ := hdc
        subst hy
        subst hm
        subst hd
        have hmb := month_alts_mem (show (mc.1, mc.2) ∈ monthAlts rest by
          simpa using hmem)
        have hdb := day_alts_mem (show (dc.1, dc.2) ∈ dayAlts rest3 by
          simpa using hdmem)
        simp only [is_digit_code, Bool.and_eq_true, decide_eq_true_eq] at hcond
        refine ⟨by omega, hmb.1, hmb.2, hdb.1, hdb.2⟩
    next hmc2 => cases hmc

/-- Completeness of the `%Y-%m-%d` pattern match on the spec sentence's fixed
shape: a dash-separated 4-digit year, 2-digit month and 2-digit day in
plausible ranges is accepted with exactly those numeric components. -/
theorem strptime_match_complete {s : String} {y1 y2 y3 y4 m1 m2 d1 d2 : Nat}
    (hdecomp : s.data.map Char.toNat = [y1, y2, y3, y4, 45, m1, m2, 45, d1, d2])
    (hyd : 48 ≤ y1 ∧ y1 ≤ 57 ∧ 48 ≤ y2 ∧ y2 ≤ 57 ∧ 48 ≤ y3 ∧ y3 ≤ 57 ∧
           48 ≤ y4 ∧ y4 ≤ 57)
    (hmd : 48 ≤ m1 ∧ m1 ≤ 57 ∧ 48 ≤ m2 ∧ m2 ≤ 57)
    (hdd : 48 ≤ d1 ∧ d1 ≤ 57 ∧ 48 ≤ d2 ∧ d2 ≤ 57)
    (hm : 1 ≤ 10 * (m1 - 48) + (m2 - 48) ∧ 10 * (m1 - 48) + (m2 - 48) ≤ 12)
    (hd : 1 ≤ 10 * (d1 - 48) + (d2 - 48) ∧ 10 * (d1 - 48) + (d2 - 48) ≤ 31) :
    strptime_match_Ymd s =
      some (1000 * (y1 - 48) + 100 * (y2 - 48) + 10 * (y3 - 48) + (y4 - 48),
            10 * (m1 - 48) + (m2 - 48), 10 * (d1 - 48) + (d2 - 48)) := by
  unfold strptime_match_Ymd
  rw [hdecomp]
  simp only []
  rw [if_pos (by
    simp only [is_digit_code, Bool.and_eq_true, decide_eq_true_eq]
    refine ⟨trivial, ?_, ?_, ?_, ?_⟩ <;> omega)]
  have hm1cases : m1 = 48 ∨ m1 = 49 := by omega
  rcases hm1cases with h | h <;> subst h
  · have hmalts : monthAlts [48, m2, 45, d1, d2] = [(m2 - 48, [45, d1, d2])] := by
      simp only [monthAlts]
      split_ifs <;>
        first
          | (exfalso; omega)
          | (exfalso; simp only [true_and, and_true] at *; omega)
          | simp
    rw [hmalts]
    have hday := day_findSome
      (1000 * (y1 - 48) + 100 * (y2 - 48) + 10 * (y3 - 48) + (y4 - 48))
      (m2 - 48) hdd hd
    simp [List.findSome?_cons, hday]
  · have hmalts : monthAlts [49, m2, 45, d1, d2] =
        [(10 + (m2 - 48), [45, d1, d2]), (49 - 48, [m2, 45, d1, d2])] := by
      simp only [monthAlts]
      split_ifs <;>
        first
          | (exfalso; omega)
          | (exfalso; simp only [true_and, and_true] at *; omega)
          | simp
    rw [hmalts]
    have hday := day_findSome
      (1000 * (y1 - 48) + 100 * (y2 - 48) + 10 * (y3 - 48) + (y4 - 48))
      (10 + (m2 - 48)) hdd hd
    simp [List.findSome?_cons, hday]

/-- Claim C9 (amended): the issue-date text is reformatted to zero-padded
day/month/year exactly when `strptime("%Y-%m-%d")` accepts it, which happens
only for calendar-valid components in the regular expression's ranges; in
particular every text of the spec's fixed 4-digit/2-digit/2-digit shape whose
components form a valid calendar date is reformatted, while any text the
parse rejects — including fixed-shape texts with an invalid month or day —
passes through unchanged. -/
theorem issue_date_mapping (s : String) :
    (∀ y m d, strptime_Ymd s = some (y, m, d) →
       (1 ≤ y ∧ y ≤ 9999 ∧ 1 ≤ m ∧ m ≤ 12 ∧ 1 ≤ d ∧ d ≤ days_in_month y m) ∧
       map_issue_date s = pad2 d ++ "/" ++ pad2 m ++ "/" ++ toString y) ∧
    (strptime_Ymd s = none → map_issue_date s = s) ∧
    (∀ y m d, claim_components s = some (y, m, d) → 1 ≤ y → 1 ≤ m → m ≤ 12 →
       1 ≤ d → d ≤ days_in_month y m → map_issue_date s = strftime_dmY y m d) := by
  refine ⟨?_, ?_, ?_⟩
  · intro y m d h
    have h0 := h
    unfold strptime_Ymd at h
    cases hmres : strptime_match_Ymd s with
    | none =>
      rw [hmres] at h
      cases h
    | some t =>
      rw [hmres] at h
      obtain ⟨ty, tm, td⟩ := t
      simp only [] at h
      split_ifs at h with hv
      · simp only [Option.some.injEq, Prod.mk.injEq] at h
        obtain ⟨hty, htm, htd⟩ := h
        subst hty
        subst htm
        subst htd
        have hb := strptime_match_spec hmres
        refine ⟨⟨hv.1, hb.1, hb.2.1, hb.2.2.1, hb.2.2.2.1, hv.2⟩, ?_⟩
        unfold map_issue_date
        rw [h0]
        rfl
  · intro h
    unfold map_issue_date
    rw [h]
  · intro y m d hc h1y h1m h12m h1d hdm
    unfold claim_components at hc
    split at hc
    case h_2 => cases hc
    case h_1 y1 y2 y3 y4 s1 m1 m2 s2 d1 d2 heq =>
      split_ifs at hc with hcond
      simp only [Option.some.injEq, Prod.mk.injEq] at hc
      obtain ⟨hy, hm, hd⟩ := hc
      obtain ⟨hs1, hs2, hdy1, hdy2, hdy3, hdy4, hdm1, hdm2, hdd1, hdd2⟩ := hcond
      simp only [is_digit_code, Bool.and_eq_true, decide_eq_true_eq] at hdy1 hdy2 hdy3 hdy4 hdm1 hdm2 hdd1 hdd2
      subst hs1
      subst hs2
      have hmatch := strptime_match_complete heq
        ⟨hdy1.1, hdy1.2, hdy2.1, hdy2.2, hdy3.1, hdy3.2, hdy4.1, hdy4.2⟩
        ⟨hdm1.1, hdm1.2, hdm2.1, hdm2.2⟩
        ⟨hdd1.1, hdd1.2, hdd2.1, hdd2.2⟩
        (by omega)
        (by
          have hd31 : d ≤ 31 := le_trans hdm (days_in_month_le_31 y m)
          omega)
      rw [hy, hm, hd] at hmatch
      have hsome : strptime_Ymd s = some (y, m, d) := by
        unfold strptime_Ymd
        rw [hmatch]
        simp only []
        rw [if_pos ⟨h1y, hdm⟩]
      unfold map_issue_date
      rw [hsome]

/-- Counterexample to claim C9 as stated: `"2025-02-31"` matches the fixed
4-digit/2-digit/2-digit dash pattern yet is passed through unchanged instead
of being reformatted, and `"2025-3-15"` does not match the pattern yet is
reformatted rather than passed through. -/
theorem issue_date_claim_counterexample :
    matches_claim_pattern "2025-02-31" = true ∧
    map_issue_date "2025-02-31" = "2025-02-31" ∧
    "2025-02-31" ≠ "31/02/2025" ∧
    matches_claim_pattern "2025-3-15" = false ∧
    map_issue_date "2025-3-15" = "15/03/2025" ∧
    "15/03/2025" ≠ "2025-3-15" := by
  refine ⟨by decide, by decide, by decide, by decide, by decide, by decide⟩

/-- Witness for C9: the spec's own example date parses and is reformatted. -/
theorem issue_date_mapping_witness :
    claim_components "2025-03-15" = some (2025, 3, 15) ∧
    map_issue_date "2025-03-15" = strftime_dmY 2025 3 15 ∧
    strftime_dmY 2025 3 15 = "15/03/2025" := by
  refine ⟨by decide, ?_, by decide⟩
  exact (issue_date_mapping "2025-03-15").2.2 2025 3 15 (by decide) (by decide)
    (by decide) (by decide) (by decide) (by decide)

/-! ### Model and renderer claims: definedness, totals block, pipeline -/

/-- The keys of the emitter dict. -/
def emisor_keys : List String :=
  ["Nombre", "NIF", "Dirección", "Poblacion", "Cod.Postal", "Provincia"]

/-- The keys of the receptor dict. -/
def receptor_keys : List String :=
  ["Nombre", "NIF", "Dirección", "OfiCont", "OrgGest", "UndTram"]

/-- The eight fixed Totals keys. -/
def totales_keys : List String :=
  ["TotalGrossAmount", "TotalGeneralDiscounts", "TotalGrossAmountBeforeTaxes",
   "TotalTaxOutputs", "TotalTaxesWithheld", "InvoiceTotal",
   "TotalOutstandingAmount", "TotalExecutableAmount"]

theorem extract_emisor (now : Int) (doc : XmlDoc) :
    (extract_invoice_data_from_xml now doc).emisor = emisor_of doc.sellerParty := rfl

theorem extract_receptor (now : Int) (doc : XmlDoc) :
    (extract_invoice_data_from_xml now doc).receptor = receptor_of doc.buyerParty := rfl

theorem extract_totales (now : Int) (doc : XmlDoc) :
    (extract_invoice_data_from_xml now doc).totales = totales_of doc.invoice := rfl

theorem totales_of_some_some {inv : InvoiceQ} {t : InvoiceTotalsQ}
    (h : inv.invoiceTotals = some t) :
    totales_of (some inv) =
      [("TotalGrossAmount", ftext t.totalGrossAmount "0.00"),
       ("TotalGeneralDiscounts", ftext t.totalGeneralDiscounts "0.00"),
       ("TotalGrossAmountBeforeTaxes", ftext t.totalGrossAmountBeforeTaxes "N/A"),
       ("TotalTaxOutputs", ftext t.totalTaxOutputs "N/A"),
       ("TotalTaxesWithheld", ftext t.totalTaxesWithheld "N/A"),
       ("InvoiceTotal", ftext t.invoiceTotal "N/A"),
       ("TotalOutstandingAmount", ftext t.totalOutstandingAmount "N/A"),
       ("TotalExecutableAmount", ftext t.totalExecutableAmount "N/A")] := by
  simp only [totales_of]
  rw [h]

theorem totales_of_some_none {inv : InvoiceQ} (h : inv.invoiceTotals = none) :
    totales_of (some inv) = [] := by
  simp only [totales_of]
  rw [h]

/-- Counterexample to claim C2 as stated: on a document whose Invoice element
is missing, the Totals mapping of the resulting model is empty, so a Totals
field is absent rather than sentinel-valued. -/
theorem totals_definedness_counterexample :
    ("TotalGrossAmount" : String) ∈ totales_keys ∧
    dmem (extract_invoice_data_from_xml 0 emptyDoc).totales ("TotalGrossAmount") =
      false := by
  exact ⟨by decide, rfl⟩

/-- Claim C2 (amended): every Party field of the model is always defined and
is the mapped value or its sentinel; every Totals field is defined exactly
when the Invoice element and its InvoiceTotals subtree are both present (in
which case it is the mapped text or its per-field sentinel), and the Totals
mapping is empty otherwise. -/
theorem party_totals_definedness (now : Int) (doc : XmlDoc) :
    (∀ k, k ∈ emisor_keys →
       dmem (extract_invoice_data_from_xml now doc).emisor k = true) ∧
    (∀ k, k ∈ receptor_keys →
       dmem (extract_invoice_data_from_xml now doc).receptor k = true) ∧
    (∀ k, k ∈ totales_keys →
       (dmem (extract_invoice_data_from_xml now doc).totales k = true ↔
        ∃ inv t, doc.invoice = some inv ∧ inv.invoiceTotals = some t)) ∧
    (doc.sellerParty = none →
       (extract_invoice_data_from_xml now doc).emisor =
         [("Nombre", "N/A"), ("NIF", "N/A"), ("Dirección", "N/A"),
          ("Poblacion", "N/A"), ("Cod.Postal", "N/A"), ("Provincia", "N/A")]) ∧
    (∀ sp, doc.sellerParty = some sp →
       (extract_invoice_data_from_xml now doc).emisor =
         [("Nombre", ftext sp.corporateName "N/A"),
          ("NIF", ftext sp.taxIdentificationNumber "N/A"),
          ("Dirección",
            ftext sp.address "N/A" ++ ", " ++ ftext sp.postCode "N/A" ++ " " ++
              ftext sp.town "N/A" ++ ", " ++ ftext sp.province "N/A" ++ ", " ++
              ftext sp.countryCode "N/A"),
          ("Poblacion", ftext sp.town "N/A"),
          ("Cod.Postal", ftext sp.postCode "N/A"),
          ("Provincia", ftext sp.province "N/A")]) ∧
    (doc.buyerParty = none →
       (extract_invoice_data_from_xml now doc).receptor =
         [("Nombre", "N/A"), ("NIF", "N/A"), ("Dirección", "N/A"),
          ("OfiCont", "N/A"), ("OrgGest", "N/A"), ("UndTram", "N/A")]) ∧
    (∀ bp, doc.buyerParty = some bp →
       (extract_invoice_data_from_xml now doc).receptor =
         [("Nombre", ftext bp.party.corporateName "N/A"),
          ("NIF", ftext bp.party.taxIdentificationNumber "N/A"),
          ("Dirección",
            ftext bp.party.address "N/A" ++ ", " ++ ftext bp.party.postCode "" ++
              " " ++ ftext bp.party.town "" ++ ", " ++ ftext bp.party.province "" ++
              ", " ++ ftext bp.party.countryCode ""),
          ("OfiCont",
            (bp.administrativeCentres.map (fun admin =>
              ftext admin.centreCode "N/A" ++ " - " ++ ftext admin.name "N/A")).getD
              0 ("N/A")),
          ("OrgGest",
            (bp.administrativeCentres.map (fun admin =>
              ftext admin.centreCode "N/A" ++ " - " ++ ftext admin.name "N/A")).getD
              1 ("N/A")),
          ("UndTram",
            (bp.administrativeCentres.map (fun admin =>
              ftext admin.centreCode "N/A" ++ " - " ++ ftext admin.name "N/A")).getD
              2 ("N/A"))]) ∧
    (∀ inv t, doc.invoice = some inv → inv.invoiceTotals = some t →
       (extract_invoice_data_from_xml now doc).totales =
         [("TotalGrossAmount", ftext t.totalGrossAmount "0.00"),
          ("TotalGeneralDiscounts", ftext t.totalGeneralDiscounts "0.00"),
          ("TotalGrossAmountBeforeTaxes", ftext t.totalGrossAmountBeforeTaxes "N/A"),
          ("TotalTaxOutputs", ftext t.totalTaxOutputs "N/A"),
          ("TotalTaxesWithheld", ftext t.totalTaxesWithheld "N/A"),
          ("InvoiceTotal", ftext t.invoiceTotal "N/A"),
          ("TotalOutstandingAmount", ftext t.totalOutstandingAmount "N/A"),
          ("TotalExecutableAmount", ftext t.totalExecutableAmount "N/A")]) ∧
    ((doc.invoice = none ∨ ∃ inv, doc.invoice = some inv ∧ inv.invoiceTotals = none) →
       (extract_invoice_data_from_xml now doc).totales = []) := by
  refine ⟨?_, ?_, ?_, ?_, ?_, ?_, ?_, ?_, ?_⟩
  · intro k hk
    rw [extract_emisor]
    have hks : k = "Nombre" ∨ k = "NIF" ∨ k = "Dirección" ∨ k = "Poblacion" ∨
        k = "Cod.Postal" ∨ k = "Provincia" := by simpa [emisor_keys] using hk
    cases hsp : doc.sellerParty <;>
      rcases hks with rfl | rfl | rfl | rfl | rfl | rfl <;> rfl
  · intro k hk
    rw [extract_receptor]
    have hks : k = "Nombre" ∨ k = "NIF" ∨ k = "Dirección" ∨ k = "OfiCont" ∨
        k = "OrgGest" ∨ k = "UndTram" := by simpa [receptor_keys] using hk
    cases hbp : doc.buyerParty <;>
      rcases hks with rfl | rfl | rfl | rfl | rfl | rfl <;>
      simp [receptor_of, dmem, destinos_of]
  · intro k hk
    rw [extract_totales]
    have hks : k = "TotalGrossAmount" ∨ k = "TotalGeneralDiscounts" ∨
        k = "TotalGrossAmountBeforeTaxes" ∨ k = "TotalTaxOutputs" ∨
        k = "TotalTaxesWithheld" ∨ k = "InvoiceTotal" ∨
        k = "TotalOutstandingAmount" ∨ k = "TotalExecutableAmount" := by
      simpa [totales_keys] using hk
    cases hinv : doc.invoice with
    | none =>
      constructor
      · intro hmem
        simp [totales_of, dmem] at hmem
      · rintro ⟨inv, t, hsome, _⟩
        cases hsome
    | some inv =>
      cases hit : inv.invoiceTotals with
      | none =>
        constructor
        · intro hmem
          rw [totales_of_some_none hit] at hmem
          simp [dmem] at hmem
        · rintro ⟨inv2, t, hsome, hsome2⟩
          injection hsome with hinv2
          subst hinv2
          rw [hit] at hsome2
          cases hsome2
      | some t =>
        constructor
        · intro _
          exact ⟨inv, t, rfl, hit⟩
        · intro _
          rw [totales_of_some_some hit]
          rcases hks with rfl | rfl | rfl | rfl | rfl | rfl | rfl | rfl <;> rfl
  · intro hsp
    rw [extract_emisor, hsp]
    rfl
  · intro sp hsp
    rw [extract_emisor, hsp]
    rfl
  · intro hbp
    rw [extract_receptor, hbp]
    rfl
  · intro bp hbp
    rw [extract_receptor, hbp]
    rfl
  · intro inv t hinv hit
    rw [extract_totales, hinv]
    exact totales_of_some_some hit
  · intro hcase
    rw [extract_totales]
    rcases hcase with hnone | ⟨inv, hsome, hit⟩
    · rw [hnone]
      rfl
    · rw [hsome]
      exact totales_of_some_none hit

/-- Witness for C2: on a document with no seller, no buyer and no invoice
element, the Party fields are defined with their sentinel values and the
Totals fields are not defined; on a document with a bare totals subtree the
Totals fields carry their per-field sentinels. -/
theorem party_totals_definedness_witness :
    ("Nombre" : String) ∈ emisor_keys ∧
    dmem (extract_invoice_data_from_xml 0 emptyDoc).emisor ("Nombre") = true ∧
    ("TotalGrossAmount" : String) ∈ totales_keys ∧
    ¬ (dmem (extract_invoice_data_from_xml 0 emptyDoc).totales
        ("TotalGrossAmount") = true) ∧
    (extract_invoice_data_from_xml 0 emptyDoc).receptor =
      [("Nombre", "N/A"), ("NIF", "N/A"), ("Dirección", "N/A"),
       ("OfiCont", "N/A"), ("OrgGest", "N/A"), ("UndTram", "N/A")] ∧
    (extract_invoice_data_from_xml 0 docWithTotals).totales =
      [("TotalGrossAmount", "0.00"), ("TotalGeneralDiscounts", "0.00"),
       ("TotalGrossAmountBeforeTaxes", "N/A"), ("TotalTaxOutputs", "N/A"),
       ("TotalTaxesWithheld", "N/A"), ("InvoiceTotal", "N/A"),
       ("TotalOutstandingAmount", "N/A"), ("TotalExecutableAmount", "N/A")] := by
  refine ⟨by decide, ?_, by decide, ?_, ?_, ?_⟩
  · exact (party_totals_definedness 0 emptyDoc).1 ("Nombre") (by decide)
  · intro hmem
    rcases ((party_totals_definedness 0 emptyDoc).2.2.1 ("TotalGrossAmount")
      (by decide)).1 hmem with ⟨inv, t, hsome, _⟩
    cases hsome
  · exact (party_totals_definedness 0 emptyDoc).2.2.2.2.2.1 rfl
  · exact (party_totals_definedness 0 docWithTotals).2.2.2.2.2.2.2.1
      bareInvoiceQ bareTotalsQ rfl rfl

/-- Counterexample to claim C1 as stated: with an empty Totals mapping the
totals section is absent entirely (not rendered with sentinels), and when it
is rendered it shows six fields, not eight. -/
theorem totals_section_counterexample :
    totals_section (extract_invoice_data_from_xml 0 emptyDoc) = [] ∧
    (totals_data (extract_invoice_data_from_xml 0 docWithTotals).totales).length =
      6 := by
  exact ⟨rfl, rfl⟩

/-- Claim C1 (amended): the totals block is rendered exactly when the Totals
mapping is non-empty, i.e. when the InvoiceTotals subtree was present; it
then shows six fixed fields (gross amount, general discounts, taxable base,
tax output, withholdings, invoice total) in that order, each value the mapped
text or its per-field sentinel. -/
theorem totals_section_spec (now : Int) (doc : XmlDoc) :
    (∀ inv t, doc.invoice = some inv → inv.invoiceTotals = some t →
       totals_section (extract_invoice_data_from_xml now doc) =
         [RenderElement.table
            [[["<b>Importe bruto total:</b>"], [ftext t.totalGrossAmount "0.00"]],
             [["<b>Descuentos generales:</b>"], [ftext t.totalGeneralDiscounts "0.00"]],
             [["<b>Base imponible antes de impuestos:</b>"],
              [ftext t.totalGrossAmountBeforeTaxes "N/A"]],
             [["<b>Importe de impuestos:</b>"], [ftext t.totalTaxOutputs "N/A"]],
             [["<b>Retenciones:</b>"], [ftext t.totalTaxesWithheld "N/A"]],
             [["<b>Importe total factura:</b>"], [ftext t.invoiceTotal "N/A"]]],
          RenderElement.spacer]) ∧
    ((doc.invoice = none ∨ ∃ inv, doc.invoice = some inv ∧ inv.invoiceTotals = none) →
       totals_section (extract_invoice_data_from_xml now doc) = []) := by
  constructor
  · intro inv t hinv hit
    unfold totals_section
    rw [extract_totales, hinv, totales_of_some_some hit]
    rw [if_pos (by simp)]
    rfl
  · intro hcase
    unfold totals_section
    rw [extract_totales]
    rcases hcase with hnone | ⟨inv, hsome, hit⟩
    · rw [hnone]
      rw [if_neg (by simp [totales_of])]
    · rw [hsome, totales_of_some_none hit]
      rw [if_neg (by simp)]

/-- Witness for C1: on a document with a bare totals subtree the section is
the six sentinel-valued rows; on one with no invoice element it is absent. -/
theorem totals_section_spec_witness :
    totals_section (extract_invoice_data_from_xml 0 docWithTotals) =
      [RenderElement.table
         [[["<b>Importe bruto total:</b>"], ["0.00"]],
          [["<b>Descuentos generales:</b>"], ["0.00"]],
          [["<b>Base imponible antes de impuestos:</b>"], ["N/A"]],
          [["<b>Importe de impuestos:</b>"], ["N/A"]],
          [["<b>Retenciones:</b>"], ["N/A"]],
          [["<b>Importe total factura:</b>"], ["N/A"]]],
       RenderElement.spacer] ∧
    totals_section (extract_invoice_data_from_xml 0 emptyDoc) = [] := by
  constructor
  · exact (totals_section_spec 0 docWithTotals).1 bareInvoiceQ bareTotalsQ rfl rfl
  · exact (totals_section_spec 0 emptyDoc).2 (Or.inl rfl)

/-- Claim C6: the pipeline raises a document-format error exactly when the
input bytes are empty or the extracted markup fails to parse; otherwise it
returns the complete rendered flowable list, and an error result never
coexists with an ok result. -/
theorem pipeline_fatal_iff (parse : List Nat → Except String XmlDoc)
    (ffmt : FloatFmt) (now : Int) (xsig_bytes : List Nat) (params : Params) :
    ((∃ e, render_pdf_from_xsig parse ffmt now xsig_bytes params = .error e) ↔
      (xsig_bytes = [] ∨
       ∃ e, parse (extract_xml_from_xsig_bytes xsig_bytes) = .error e)) ∧
    (∀ root, xsig_bytes ≠ [] →
       parse (extract_xml_from_xsig_bytes xsig_bytes) = .ok root →
       render_pdf_from_xsig parse ffmt now xsig_bytes params =
         .ok (generate_pdf_from_invoice ffmt
           (extract_invoice_data_from_xml now root) params)) ∧
    (∀ e doc_out, render_pdf_from_xsig parse ffmt now xsig_bytes params = .error e →
       render_pdf_from_xsig parse ffmt now xsig_bytes params ≠ .ok doc_out) := by
  refine ⟨?_, ?_, ?_⟩
  · constructor
    · rintro ⟨e, he⟩
      unfold render_pdf_from_xsig at he
      simp only [] at he
      split_ifs at he with hb
      · exact Or.inl hb
      · cases hp : parse (extract_xml_from_xsig_bytes xsig_bytes) with
        | error e2 => exact Or.inr ⟨e2, rfl⟩
        | ok root =>
          rw [hp] at he
          simp at he
    · rintro (hb | ⟨e, he⟩)
      · refine ⟨"Archivo vacío o no legible.", ?_⟩
        unfold render_pdf_from_xsig
        rw [if_pos hb]
      · by_cases hb : xsig_bytes = []
        · refine ⟨"Archivo vacío o no legible.", ?_⟩
          unfold render_pdf_from_xsig
          rw [if_pos hb]
        · refine ⟨"El archivo no parece un XSIG/XML válido: " ++ e, ?_⟩
          unfold render_pdf_from_xsig
          simp only []
          rw [if_neg hb, he]
  · intro root hb hp
    unfold render_pdf_from_xsig
    simp only []
    rw [if_neg hb, hp]
  · intro e doc_out herr hok
    rw [herr] at hok
    cases hok

/-- Witness for C6: with a failing markup parser the pipeline yields the
document-format error, and with a succeeding parser it yields the complete
flowable list of the extracted model. -/
theorem pipeline_fatal_iff_witness :
    (∃ e, render_pdf_from_xsig (fun _ => Except.error "boom") (fun _ _ => none) 0
        [0] ⟨"r", "t", "n", "f"⟩ = .error e) ∧
    render_pdf_from_xsig (fun _ => Except.ok emptyDoc) (fun _ _ => none) 0
        [0] ⟨"r", "t", "n", "f"⟩ =
      .ok (generate_pdf_from_invoice (fun _ _ => none)
        (extract_invoice_data_from_xml 0 emptyDoc) ⟨"r", "t", "n", "f"⟩) := by
  constructor
  · exact (pipeline_fatal_iff (fun _ => Except.error "boom") (fun _ _ => none) 0
      [0] ⟨"r", "t", "n", "f"⟩).1.mpr (Or.inr ⟨"boom", rfl⟩)
  · exact (pipeline_fatal_iff (fun _ => Except.ok emptyDoc) (fun _ _ => none) 0
      [0] ⟨"r", "t", "n", "f"⟩).2.1 emptyDoc (by decide) rfl

end XsigToPdf
